import Mathlib

/-!
Verification of the orbit-camera, light-aiming and loading-gate logic of the
pc_case_visualizer application (src/main.rs).

The `f32` arithmetic of the source is idealised over `ℝ`.  The host engine's
rotation library (quaternions: `look_at`, `Quat::inverse`, `Quat::mul`,
`Quat::from_rotation_arc`) is external to the repository, so those operations
are abstracted as parameters of the embedded systems: the systems below are
polymorphic in a rotation type `Q` and receive the library operations as
function arguments, exactly at the call sites the source uses them.
-/

namespace PcCase

/-- 3D vector with real components: the shallow embedding of `Vec3` values
flowing through `main.rs` (`f32` idealised as `ℝ`). -/
@[ext]
structure Vec3 where
  x : ℝ
  y : ℝ
  z : ℝ

instance : Add Vec3 := ⟨fun a b => ⟨a.x + b.x, a.y + b.y, a.z + b.z⟩⟩

instance : Sub Vec3 := ⟨fun a b => ⟨a.x - b.x, a.y - b.y, a.z - b.z⟩⟩

/-- `Vec3::length_squared`. -/
def Vec3.length_squared (v : Vec3) : ℝ := v.x * v.x + v.y * v.y + v.z * v.z

/-- `Vec3::length`. -/
noncomputable def Vec3.length (v : Vec3) : ℝ := Real.sqrt v.length_squared

/-- `Vec3::normalize` (divide by the length). -/
noncomputable def Vec3.normalize (v : Vec3) : Vec3 :=
  ⟨v.x / v.length, v.y / v.length, v.z / v.length⟩

/-- `Vec3::Y`, the up axis used by `look_at`. -/
def vecY : Vec3 := ⟨0, 1, 0⟩

/-- `Vec3::NEG_Z`, the reference forward axis used by `from_rotation_arc`. -/
def negZ : Vec3 := ⟨0, 0, -1⟩

/-- The `OrbitCamera` component of `main.rs` (lines 80-87). -/
structure OrbitCamera where
  radius : ℝ
  yaw : ℝ
  pitch : ℝ
  speed : ℝ
  target : Vec3

/-- A bevy `Transform` restricted to the two fields `main.rs` touches:
translation and rotation.  The rotation type `Q` is abstract (the engine's
quaternion type). -/
structure Transform (Q : Type) where
  translation : Vec3
  rotation : Q

/-- Rust `f32::clamp(lo, hi)` (for `lo ≤ hi`, over `ℝ`). -/
noncomputable def rustClamp (v lo hi : ℝ) : ℝ :=
  if v < lo then lo else if hi < v then hi else v

/-- The input mapping of `orbit_camera_system` (lines 160-167): `direction`
starts at `0.0`, `KeyA` held adds `1.0`, `KeyD` held subtracts `1.0`. -/
def direction (keyA keyD : Bool) : ℝ :=
  (if keyA then (1 : ℝ) else 0) + (if keyD then (-1 : ℝ) else 0)

/-- `orbit_camera_system` (lines 154-187) acting on one camera entity.
`lookAt pos target up` abstracts `Transform::look_at`, which recomputes the
rotation from the just-written translation, the target and the up axis.
Returns the updated `OrbitCamera` component and the updated `Transform`. -/
noncomputable def orbit_camera_system {Q : Type} (lookAt : Vec3 → Vec3 → Vec3 → Q)
    (dt : ℝ) (keyA keyD : Bool) (orbit : OrbitCamera) (_t : Transform Q) :
    OrbitCamera × Transform Q :=
  let dir := direction keyA keyD
  let yaw1 := orbit.yaw + dir * orbit.speed * dt
  let pitch1 := rustClamp orbit.pitch 0.05 1.2
  let cos_pitch := Real.cos pitch1
  let sin_pitch := Real.sin pitch1
  let px := orbit.radius * Real.cos yaw1 * cos_pitch
  let pz := orbit.radius * Real.sin yaw1 * cos_pitch
  let py := orbit.radius * sin_pitch
  let tr := orbit.target + ⟨px, py, pz⟩
  ({ orbit with yaw := yaw1, pitch := pitch1 },
   { translation := tr, rotation := lookAt tr orbit.target vecY })

/-- `sync_orbit_camera_on_spawn` (lines 141-152) acting on one camera entity:
same spherical-to-Cartesian conversion, but no input step and no pitch clamp,
and the `OrbitCamera` component is not mutated.  The unused `t` mirrors the
`&mut Transform` the system overwrites. -/
noncomputable def sync_orbit_camera_on_spawn {Q : Type}
    (lookAt : Vec3 → Vec3 → Vec3 → Q) (orbit : OrbitCamera) (_t : Transform Q) :
    Transform Q :=
  let px := orbit.radius * Real.cos orbit.yaw * Real.cos orbit.pitch
  let pz := orbit.radius * Real.sin orbit.yaw * Real.cos orbit.pitch
  let py := orbit.radius * Real.sin orbit.pitch
  let tr := orbit.target + ⟨px, py, pz⟩
  { translation := tr, rotation := lookAt tr orbit.target vecY }

/-- bevy `Query::single()`: `Ok` exactly when the query matches one entity
(`Err` both for zero and for more than one match). -/
def querySingle {α : Type} : List α → Option α
  | [a] => some a
  | _ => none

/-- `aim_camera_light` (lines 189-205).  A camera match is its
`GlobalTransform` rotation paired with its `OrbitCamera`; a light is its
local `Transform` paired with its `GlobalTransform` translation.  `qinv`,
`qmul` and `fromRotationArc` abstract `Quat::inverse`, quaternion
multiplication and `Quat::from_rotation_arc`.  Returns the light's local
transforms after the system ran. -/
noncomputable def aim_camera_light {Q : Type} (qinv : Q → Q) (qmul : Q → Q → Q)
    (fromRotationArc : Vec3 → Vec3 → Q)
    (cameras : List (Q × OrbitCamera)) (lights : List (Transform Q × Vec3)) :
    List (Transform Q) :=
  match querySingle cameras with
  | none => lights.map (fun l => l.1)
  | some (camRot, orbit) =>
      lights.map (fun l =>
        let dir := orbit.target - l.2
        if 0.0001 < dir.length_squared then
          { l.1 with rotation := qmul (qinv camRot) (fromRotationArc negZ dir.normalize) }
        else l.1)

/-- The two-state `Screen` enum (lines 49-54). -/
inductive Screen where
  | Loading : Screen
  | Game : Screen
deriving DecidableEq

/-- Modelled from the spec: observable application state of the loading gate.
The engine's `States`/`NextState` machinery and the `asset_tracking` module
(`ResourceHandles::is_all_done`) are not part of `src/`; per the spec the
gate polls a boolean predicate each tick while `Loading` and, on the tick it
reads `true`, transitions to `Game` exactly once, running the one-shot
`OnEnter(Screen::Game)` spawn systems (counted by `spawns`). -/
structure AppState where
  screen : Screen
  spawns : Nat
deriving DecidableEq

/-- Initial state: `Screen::Loading` is the `#[default]` variant, nothing
spawned yet. -/
def appInit : AppState := ⟨Screen.Loading, 0⟩

/-- Modelled from the spec: one engine tick of the loading gate.
`enter_gameplay_screen` runs only under
`in_state(Screen::Loading).and(all_assets_loaded)` and sets the next state to
`Game`; entering `Game` runs the spawn chain once.  In `Game` the gate does
nothing. -/
def appTick (s : AppState) (allDone : Bool) : AppState :=
  match s.screen with
  | Screen.Loading => if allDone then ⟨Screen.Game, s.spawns + 1⟩ else s
  | Screen.Game => s

/-- Iterate `appTick` over a trace of per-tick readings of the
all-assets-loaded predicate. -/
def appRun : AppState → List Bool → AppState
  | s, [] => s
  | s, b :: rest => appRun (appTick s b) rest

/-! ### Helper lemmas -/

theorem rustClamp_mem (v lo hi : ℝ) (h : lo ≤ hi) :
    lo ≤ rustClamp v lo hi ∧ rustClamp v lo hi ≤ hi := by
  unfold rustClamp
  split_ifs with h1 h2 <;> constructor <;> linarith

theorem rustClamp_eq_self (v lo hi : ℝ) (h1 : lo ≤ v) (h2 : v ≤ hi) :
    rustClamp v lo hi = v := by
  unfold rustClamp
  split_ifs with g1 g2 <;> linarith

theorem rustClamp_idem (v lo hi : ℝ) (h : lo ≤ hi) :
    rustClamp (rustClamp v lo hi) lo hi = rustClamp v lo hi := by
  have hm := rustClamp_mem v lo hi h
  exact rustClamp_eq_self _ _ _ hm.1 hm.2

theorem appRun_append (s : AppState) (l1 l2 : List Bool) :
    appRun s (l1 ++ l2) = appRun (appRun s l1) l2 := by
  induction l1 generalizing s with
  | nil => rfl
  | cons b rest ih => simp [appRun, ih]

theorem appRun_game (n : Nat) (l : List Bool) :
    appRun ⟨Screen.Game, n⟩ l = ⟨Screen.Game, n⟩ := by
  induction l with
  | nil => rfl
  | cons b rest ih => simpa [appRun, appTick] using ih

theorem appRun_on_all_false (pre : List Bool) (hpre : ∀ b ∈ pre, b = false) :
    appRun appInit pre = appInit := by
  induction pre with
  | nil => rfl
  | cons b rest ih =>
      have hb : b = false := hpre b (List.mem_cons_self b rest)
      have hr : ∀ x ∈ rest, x = false := fun x hx => hpre x (List.mem_cons_of_mem b hx)
      subst hb
      simpa [appRun, appTick, appInit] using ih hr

@[simp]
theorem Vec3.add_def (a b : Vec3) : a + b = ⟨a.x + b.x, a.y + b.y, a.z + b.z⟩ := rfl

@[simp]
theorem Vec3.sub_def (a b : Vec3) : a - b = ⟨a.x - b.x, a.y - b.y, a.z - b.z⟩ := rfl

theorem Vec3.add_sub_cancel_left (a b : Vec3) : a + b - a = b := by
  ext <;> simp

/-! ### Claim theorems -/

/-- Claim C1 (amended: nonnegative radius): for every yaw, pitch, nonnegative
radius and target, the camera position computed by the per-tick orbit update
lies at distance exactly `radius` from `target`. -/
theorem camera_on_sphere {Q : Type} (lookAt : Vec3 → Vec3 → Vec3 → Q)
    (dt : ℝ) (keyA keyD : Bool) (orbit : OrbitCamera) (t : Transform Q)
    (h : 0 ≤ orbit.radius) :
    Vec3.length
        (((orbit_camera_system lookAt dt keyA keyD orbit t).2).translation
          - orbit.target)
      = orbit.radius := by
  simp only [orbit_camera_system]
  rw [Vec3.add_sub_cancel_left]
  have h1 := Real.sin_sq_add_cos_sq (orbit.yaw + direction keyA keyD * orbit.speed * dt)
  have h2 := Real.sin_sq_add_cos_sq (rustClamp orbit.pitch 0.05 1.2)
  rw [Vec3.length, Vec3.length_squared]
  have key : ∀ r y p : ℝ,
      r * Real.cos y * Real.cos p * (r * Real.cos y * Real.cos p)
          + r * Real.sin p * (r * Real.sin p)
          + r * Real.sin y * Real.cos p * (r * Real.sin y * Real.cos p)
        = r ^ 2 := by
    intro r y p
    have a1 := Real.sin_sq_add_cos_sq y
    have a2 := Real.sin_sq_add_cos_sq p
    linear_combination (r ^ 2 * Real.cos p ^ 2) * a1 + r ^ 2 * a2
  rw [key orbit.radius (orbit.yaw + direction keyA keyD * orbit.speed * dt)
    (rustClamp orbit.pitch 0.05 1.2)]
  exact Real.sqrt_sq h

/-- Claim C1 witness: at radius `900` (with no keys held, `dt = 1`, yaw
`0.7`, pitch `0.4`, target `(0, 200, 0)`) the camera-to-target distance is
exactly `900`. -/
theorem camera_on_sphere_witness :
    Vec3.length
        (((orbit_camera_system (fun _ _ _ => (() : Unit)) 1 false false
            ⟨900, 0.7, 0.4, 1.5, ⟨0, 200, 0⟩⟩ ⟨⟨0, 0, 0⟩, ()⟩).2).translation
          - (⟨0, 200, 0⟩ : Vec3))
      = 900 :=
  camera_on_sphere (fun _ _ _ => (() : Unit)) 1 false false
    ⟨900, 0.7, 0.4, 1.5, ⟨0, 200, 0⟩⟩ ⟨⟨0, 0, 0⟩, ()⟩ (by norm_num)

/-- Claim C1 counterexample: with radius `-1` the computed camera position is
at distance `1`, not `-1`, from the target, so the claim is false for
negative radii: the distance is a nonnegative square root, the radius is
negative. -/
theorem camera_on_sphere_cex :
    ¬ (Vec3.length
          (((orbit_camera_system (fun _ _ _ => (() : Unit)) 1 false false
              ⟨-1, 0, 0.4, 1.5, ⟨0, 0, 0⟩⟩ ⟨⟨0, 0, 0⟩, ()⟩).2).translation
            - (⟨0, 0, 0⟩ : Vec3))
        = -1) := by
  intro h
  have h0 : (0 : ℝ) ≤ Vec3.length
      (((orbit_camera_system (fun _ _ _ => (() : Unit)) 1 false false
          ⟨-1, 0, 0.4, 1.5, ⟨0, 0, 0⟩⟩ ⟨⟨0, 0, 0⟩, ()⟩).2).translation
        - (⟨0, 0, 0⟩ : Vec3)) := Real.sqrt_nonneg _
  rw [h] at h0
  norm_num at h0

/-! ### Certified rational bounds on `sin 0.4` and `cos 0.4`

Obtained from the order-4 Taylor bounds at `0.05` and three applications of
the double-angle formulas, with outward-rounded decimal endpoints. -/

theorem sin005_bounds : (0.04997884 : ℝ) ≤ Real.sin 0.05 ∧ Real.sin 0.05 ≤ 0.04997950 := by
  have h := Real.sin_bound (show |(0.05 : ℝ)| ≤ 1 by rw [abs_le]; norm_num)
  rw [abs_of_nonneg (by norm_num : (0:ℝ) ≤ 0.05), abs_le] at h
  constructor <;> nlinarith [h.1, h.2]

theorem cos005_bounds : (0.99874967 : ℝ) ≤ Real.cos 0.05 ∧ Real.cos 0.05 ≤ 0.99875033 := by
  have h := Real.cos_bound (show |(0.05 : ℝ)| ≤ 1 by rw [abs_le]; norm_num)
  rw [abs_of_nonneg (by norm_num : (0:ℝ) ≤ 0.05), abs_le] at h
  constructor <;> nlinarith [h.1, h.2]

theorem sin01_bounds : (0.09983269 : ℝ) ≤ Real.sin 0.1 ∧ Real.sin 0.1 ≤ 0.09983409 := by
  have hs := sin005_bounds
  have hc := cos005_bounds
  have hd : Real.sin 0.1 = 2 * Real.sin 0.05 * Real.cos 0.05 := by
    rw [show (0.1 : ℝ) = 2 * 0.05 by norm_num, Real.sin_two_mul]
  rw [hd]
  constructor <;> nlinarith [hs.1, hs.2, hc.1, hc.2]

theorem cos01_bounds : (0.99500408 : ℝ) ≤ Real.cos 0.1 ∧ Real.cos 0.1 ≤ 0.99500425 := by
  have hs := sin005_bounds
  have hp := Real.sin_sq_add_cos_sq (0.05 : ℝ)
  have hd : Real.cos 0.1 = 2 * Real.cos 0.05 ^ 2 - 1 := by
    rw [show (0.1 : ℝ) = 2 * 0.05 by norm_num, Real.cos_two_mul]
  rw [hd]
  constructor <;> nlinarith [hs.1, hs.2, hp]

theorem sin02_bounds : (0.19866785 : ℝ) ≤ Real.sin 0.2 ∧ Real.sin 0.2 ≤ 0.19867070 := by
  have hs := sin01_bounds
  have hc := cos01_bounds
  have hd : Real.sin 0.2 = 2 * Real.sin 0.1 * Real.cos 0.1 := by
    rw [show (0.2 : ℝ) = 2 * 0.1 by norm_num, Real.sin_two_mul]
  rw [hd]
  constructor <;> nlinarith [hs.1, hs.2, hc.1, hc.2]

theorem cos02_bounds : (0.98006627 : ℝ) ≤ Real.cos 0.2 ∧ Real.cos 0.2 ≤ 0.98006691 := by
  have hs := sin01_bounds
  have hp := Real.sin_sq_add_cos_sq (0.1 : ℝ)
  have hd : Real.cos 0.2 = 2 * Real.cos 0.1 ^ 2 - 1 := by
    rw [show (0.2 : ℝ) = 2 * 0.1 by norm_num, Real.cos_two_mul]
  rw [hd]
  constructor <;> nlinarith [hs.1, hs.2, hp]

theorem sin04_bounds : (0.38941527 : ℝ) ≤ Real.sin 0.4 ∧ Real.sin 0.4 ≤ 0.38942120 := by
  have hs := sin02_bounds
  have hc := cos02_bounds
  have hd : Real.sin 0.4 = 2 * Real.sin 0.2 * Real.cos 0.2 := by
    rw [show (0.4 : ℝ) = 2 * 0.2 by norm_num, Real.sin_two_mul]
  rw [hd]
  constructor <;> nlinarith [hs.1, hs.2, hc.1, hc.2]

theorem cos04_bounds : (0.92105990 : ℝ) ≤ Real.cos 0.4 ∧ Real.cos 0.4 ≤ 0.92106219 := by
  have hs := sin02_bounds
  have hp := Real.sin_sq_add_cos_sq (0.2 : ℝ)
  have hd : Real.cos 0.4 = 2 * Real.cos 0.2 ^ 2 - 1 := by
    rw [show (0.4 : ℝ) = 2 * 0.2 by norm_num, Real.cos_two_mul]
  rw [hd]
  constructor <;> nlinarith [hs.1, hs.2, hp]

/-- The translation computed by the per-tick update in the C6 scenario:
yaw `0`, pitch `0.4`, radius `900`, target `(0, 200, 0)`, no keys held. -/
theorem c6_translation :
    ((orbit_camera_system (fun _ _ _ => (() : Unit)) 1 false false
        ⟨900, 0, 0.4, 1.5, ⟨0, 200, 0⟩⟩ ⟨⟨0, 0, 0⟩, ()⟩).2).translation
      = ⟨900 * Real.cos 0.4, 200 + 900 * Real.sin 0.4, 0⟩ := by
  have hcl : rustClamp 0.4 0.05 1.2 = 0.4 :=
    rustClamp_eq_self 0.4 0.05 1.2 (by norm_num) (by norm_num)
  simp [orbit_camera_system, direction, hcl]

/-- Claim C6 counterexample: in the scenario yaw `0`, pitch `0.4`, radius
`900`, target `(0, 200, 0)`, the computed position is NOT within `1e-2` per
component of `(829.04, 550.37, 0.0)`: the x component is
`900 * cos 0.4 ≈ 828.955`, more than `0.07` below `829.03`. -/
theorem scenario_position_cex :
    ¬ (|((orbit_camera_system (fun _ _ _ => (() : Unit)) 1 false false
            ⟨900, 0, 0.4, 1.5, ⟨0, 200, 0⟩⟩ ⟨⟨0, 0, 0⟩, ()⟩).2).translation.x
          - 829.04| ≤ 0.01 ∧
       |((orbit_camera_system (fun _ _ _ => (() : Unit)) 1 false false
            ⟨900, 0, 0.4, 1.5, ⟨0, 200, 0⟩⟩ ⟨⟨0, 0, 0⟩, ()⟩).2).translation.y
          - 550.37| ≤ 0.01 ∧
       |((orbit_camera_system (fun _ _ _ => (() : Unit)) 1 false false
            ⟨900, 0, 0.4, 1.5, ⟨0, 200, 0⟩⟩ ⟨⟨0, 0, 0⟩, ()⟩).2).translation.z
          - 0| ≤ 0.01) := by
  rw [c6_translation]
  intro h
  obtain ⟨h1, -, -⟩ := h
  rw [abs_le] at h1
  have hc := cos04_bounds
  simp only at h1
  linarith [h1.1, hc.2]

/-- Claim C6 (amended: the correct reference values are
`(828.95, 550.48, 0.0)`): in the scenario yaw `0`, pitch `0.4`, radius `900`,
target `(0, 200, 0)`, the computed position equals `(828.95, 550.48, 0.0)`
within `1e-2` in each component. -/
theorem scenario_position_amended :
    |((orbit_camera_system (fun _ _ _ => (() : Unit)) 1 false false
          ⟨900, 0, 0.4, 1.5, ⟨0, 200, 0⟩⟩ ⟨⟨0, 0, 0⟩, ()⟩).2).translation.x
        - 828.95| ≤ 0.01 ∧
      |((orbit_camera_system (fun _ _ _ => (() : Unit)) 1 false false
            ⟨900, 0, 0.4, 1.5, ⟨0, 200, 0⟩⟩ ⟨⟨0, 0, 0⟩, ()⟩).2).translation.y
          - 550.48| ≤ 0.01 ∧
      |((orbit_camera_system (fun _ _ _ => (() : Unit)) 1 false false
            ⟨900, 0, 0.4, 1.5, ⟨0, 200, 0⟩⟩ ⟨⟨0, 0, 0⟩, ()⟩).2).translation.z
          - 0| ≤ 0.01 := by
  rw [c6_translation]
  have hc := cos04_bounds
  have hs := sin04_bounds
  refine ⟨?_, ?_, ?_⟩ <;> simp only <;> rw [abs_le] <;> constructor <;>
    linarith [hc.1, hc.2, hs.1, hs.2]

/-- Claim C9: the one-time sync update run after the camera is spawned
computes exactly the transform the regular per-tick update computes with zero
input direction and the same `OrbitCamera` parameters, provided the stored
pitch is already inside the clamp range `[0.05, 1.2]` (as it is at spawn,
where pitch is `0.4`). -/
theorem sync_matches_tick {Q : Type} (lookAt : Vec3 → Vec3 → Vec3 → Q)
    (dt : ℝ) (orbit : OrbitCamera) (t : Transform Q)
    (h1 : 0.05 ≤ orbit.pitch) (h2 : orbit.pitch ≤ 1.2) :
    sync_orbit_camera_on_spawn lookAt orbit t
      = (orbit_camera_system lookAt dt false false orbit t).2 := by
  simp [sync_orbit_camera_on_spawn, orbit_camera_system, direction,
    rustClamp_eq_self orbit.pitch 0.05 1.2 h1 h2]

/-- Claim C9 witness: at the spawn parameters (radius `900`, yaw `0.7`,
pitch `0.4`, speed `1.5`, target `(0, 200, 0)`) the sync update and the
per-tick update with no keys held produce the same transform. -/
theorem sync_matches_tick_witness :
    sync_orbit_camera_on_spawn (fun _ _ _ => (() : Unit))
        ⟨900, 0.7, 0.4, 1.5, ⟨0, 200, 0⟩⟩ ⟨⟨0, 0, 0⟩, ()⟩
      = (orbit_camera_system (fun _ _ _ => (() : Unit)) 1 false false
          ⟨900, 0.7, 0.4, 1.5, ⟨0, 200, 0⟩⟩ ⟨⟨0, 0, 0⟩, ()⟩).2 :=
  sync_matches_tick (fun _ _ _ => (() : Unit)) 1
    ⟨900, 0.7, 0.4, 1.5, ⟨0, 200, 0⟩⟩ ⟨⟨0, 0, 0⟩, ()⟩
    (by norm_num) (by norm_num)

/-- Claim C2: after every per-tick orbit update, for any starting pitch value
(including out-of-range ones), the `OrbitCamera` pitch field lies in the
closed interval `[0.05, 1.2]`. -/
theorem pitch_invariant_after_update {Q : Type} (lookAt : Vec3 → Vec3 → Vec3 → Q)
    (dt : ℝ) (keyA keyD : Bool) (orbit : OrbitCamera) (t : Transform Q) :
    0.05 ≤ ((orbit_camera_system lookAt dt keyA keyD orbit t).1).pitch ∧
      ((orbit_camera_system lookAt dt keyA keyD orbit t).1).pitch ≤ 1.2 := by
  have h := rustClamp_mem orbit.pitch 0.05 1.2 (by norm_num)
  simpa [orbit_camera_system] using h

/-- Claim C3: in one per-tick update with elapsed time `dt`, holding only
`KeyA` changes yaw by exactly `+speed*dt`, holding only `KeyD` changes it by
exactly `-speed*dt`, and holding both or neither leaves yaw unchanged. -/
theorem yaw_direction_mapping {Q : Type} (lookAt : Vec3 → Vec3 → Vec3 → Q)
    (dt : ℝ) (keyA keyD : Bool) (orbit : OrbitCamera) (t : Transform Q) :
    (keyA = true → keyD = false →
      ((orbit_camera_system lookAt dt keyA keyD orbit t).1).yaw
        = orbit.yaw + orbit.speed * dt) ∧
    (keyA = false → keyD = true →
      ((orbit_camera_system lookAt dt keyA keyD orbit t).1).yaw
        = orbit.yaw - orbit.speed * dt) ∧
    (keyA = keyD →
      ((orbit_camera_system lookAt dt keyA keyD orbit t).1).yaw = orbit.yaw) := by
  refine ⟨?_, ?_, ?_⟩
  · intro h1 h2
    subst h1; subst h2
    simp [orbit_camera_system, direction]
  · intro h1 h2
    subst h1; subst h2
    simp [orbit_camera_system, direction]
    ring
  · intro h
    cases keyA <;> cases keyD <;> simp_all [orbit_camera_system, direction]

/-- Claim C3 witness: with only `KeyA` held, `yaw = 2`, `speed = 3`,
`dt = 5`, the updated yaw is `2 + 3 * 5`. -/
theorem yaw_direction_mapping_witness :
    ((orbit_camera_system (fun _ _ _ => ()) 5 true false
        ⟨900, 2, 0.4, 3, ⟨0, 0, 0⟩⟩ ⟨⟨0, 0, 0⟩, ()⟩).1).yaw = 2 + 3 * 5 :=
  (yaw_direction_mapping (fun _ _ _ => ()) 5 true false
    ⟨900, 2, 0.4, 3, ⟨0, 0, 0⟩⟩ ⟨⟨0, 0, 0⟩, ()⟩).1 rfl rfl

/-- Claim C4: starting in `Loading`, every tick on which the all-assets-loaded
predicate reads `false` leaves the state `Loading` with nothing spawned; the
tick after the predicate first reads `true` transitions to `Game` and runs the
spawn exactly once; and no later reading (of any value) ever re-enters
`Loading` or re-triggers the spawn. -/
theorem loading_gate_transitions_once (pre post : List Bool)
    (hpre : ∀ b ∈ pre, b = false) :
    appRun appInit pre = appInit ∧
      appRun appInit (pre ++ true :: post) = ⟨Screen.Game, 1⟩ := by
  refine ⟨appRun_on_all_false pre hpre, ?_⟩
  rw [appRun_append, appRun_on_all_false pre hpre]
  show appRun (appTick appInit true) post = _
  simpa [appTick, appInit] using appRun_game 1 post

/-- Claim C4 witness: two `false` readings keep the gate in the initial
state; the `true` reading then transitions to `Game` with one spawn, and
later `true`/`false` readings change nothing. -/
theorem loading_gate_transitions_once_witness :
    appRun appInit [false, false] = appInit ∧
      appRun appInit ([false, false] ++ true :: [true, false]) = ⟨Screen.Game, 1⟩ :=
  loading_gate_transitions_once [false, false] [true, false] (by decide)

/-- Claim C5: the light-aiming step leaves a spotlight's rotation unchanged
whenever the squared distance from the light's world position to the orbit
target is at most `1e-4`; and when no camera entity exists the step no-ops
for every spotlight. -/
theorem aim_light_degenerate_guard {Q : Type} (qinv : Q → Q) (qmul : Q → Q → Q)
    (arc : Vec3 → Vec3 → Q) :
    (∀ (camRot : Q) (orbit : OrbitCamera) (lt : Transform Q) (gpos : Vec3),
      (orbit.target - gpos).length_squared ≤ 0.0001 →
        aim_camera_light qinv qmul arc [(camRot, orbit)] [(lt, gpos)] = [lt]) ∧
    (∀ lights : List (Transform Q × Vec3),
      aim_camera_light qinv qmul arc [] lights = lights.map (fun l => l.1)) := by
  constructor
  · intro camRot orbit lt gpos h
    have hng : ¬ (0.0001 < (orbit.target - gpos).length_squared) := not_lt.mpr h
    simp only [Vec3.sub_def] at hng
    simp [aim_camera_light, querySingle, hng]
  · intro lights
    simp [aim_camera_light, querySingle]

/-- Claim C5 witness: a light sitting exactly at the target (squared distance
`0 ≤ 1e-4`) keeps its transform, and with an empty camera query the lights
are returned unchanged. -/
theorem aim_light_degenerate_guard_witness :
    (aim_camera_light (fun q => q) (fun _ b => b) (fun _ _ => (() : Unit))
        [((), ⟨900, 0.7, 0.4, 1.5, ⟨0, 200, 0⟩⟩)] [(⟨⟨0, 50, 0⟩, ()⟩, ⟨0, 200, 0⟩)]
      = [⟨⟨0, 50, 0⟩, ()⟩]) ∧
    (aim_camera_light (fun q => q) (fun _ b => b) (fun _ _ => (() : Unit))
        ([] : List (Unit × OrbitCamera)) [(⟨⟨0, 50, 0⟩, ()⟩, ⟨0, 200, 0⟩)]
      = [⟨⟨0, 50, 0⟩, ()⟩]) :=
  ⟨(aim_light_degenerate_guard (fun q => q) (fun _ b => b) (fun _ _ => (() : Unit))).1
      () ⟨900, 0.7, 0.4, 1.5, ⟨0, 200, 0⟩⟩ ⟨⟨0, 50, 0⟩, ()⟩ ⟨0, 200, 0⟩
      (by norm_num [Vec3.length_squared]),
   (aim_light_degenerate_guard (fun q => q) (fun _ b => b) (fun _ _ => (() : Unit))).2
      [(⟨⟨0, 50, 0⟩, ()⟩, ⟨0, 200, 0⟩)]⟩

/-- Claim C8: in the non-degenerate case (squared light-to-target distance
above `1e-4`, one camera present) the step sets the spotlight's local
rotation to `inverse(camera_rotation) * from_rotation_arc(-Z, normalize(target
- light_position))`, leaving the translation untouched. -/
theorem aim_light_points_at_target {Q : Type} (qinv : Q → Q) (qmul : Q → Q → Q)
    (arc : Vec3 → Vec3 → Q) (camRot : Q) (orbit : OrbitCamera)
    (lt : Transform Q) (gpos : Vec3)
    (h : 0.0001 < (orbit.target - gpos).length_squared) :
    aim_camera_light qinv qmul arc [(camRot, orbit)] [(lt, gpos)]
      = [{ lt with
            rotation := qmul (qinv camRot) (arc negZ (orbit.target - gpos).normalize) }] := by
  have h2 := h
  simp only [Vec3.sub_def] at h2
  simp [aim_camera_light, querySingle, h2]

/-- Claim C8 witness: a light at the origin, target `(0, 0, 10)` (squared
distance `100 > 1e-4`), camera rotation `3`, with abstract rotation algebra
instantiated on `ℤ` (`qinv = neg`, `qmul = add`, `arc = const 5`): the light's
rotation becomes `-3 + 5` and its translation stays `(1, 2, 3)`. -/
theorem aim_light_points_at_target_witness :
    aim_camera_light (fun q : ℤ => -q) (fun a b => a + b) (fun _ _ => (5 : ℤ))
        [((3 : ℤ), ⟨900, 0.7, 0.4, 1.5, ⟨0, 0, 10⟩⟩)] [(⟨⟨1, 2, 3⟩, 7⟩, ⟨0, 0, 0⟩)]
      = [⟨⟨1, 2, 3⟩, -3 + 5⟩] := by
  have h := aim_light_points_at_target (fun q : ℤ => -q) (fun a b => a + b)
    (fun _ _ => (5 : ℤ)) 3 ⟨900, 0.7, 0.4, 1.5, ⟨0, 0, 10⟩⟩ ⟨⟨1, 2, 3⟩, 7⟩ ⟨0, 0, 0⟩
    (by norm_num [Vec3.length_squared])
  exact h

/-- Claim C7 counterexample: with two camera entities, the aiming step does
NOT behave as if it used the first camera: `Query::single()` errors on
multiple matches, so the step no-ops and the light keeps rotation `7`,
whereas aiming with the first camera would set rotation `-3 + 5`. -/
theorem aim_uses_first_camera_cex :
    aim_camera_light (fun q : ℤ => -q) (fun a b => a + b) (fun _ _ => (5 : ℤ))
        [((3 : ℤ), ⟨900, 0.7, 0.4, 1.5, ⟨0, 0, 10⟩⟩),
         ((4 : ℤ), ⟨900, 0.7, 0.4, 1.5, ⟨0, 0, 10⟩⟩)]
        [(⟨⟨1, 2, 3⟩, 7⟩, ⟨0, 0, 0⟩)]
      ≠ aim_camera_light (fun q : ℤ => -q) (fun a b => a + b) (fun _ _ => (5 : ℤ))
          [((3 : ℤ), ⟨900, 0.7, 0.4, 1.5, ⟨0, 0, 10⟩⟩)]
          [(⟨⟨1, 2, 3⟩, 7⟩, ⟨0, 0, 0⟩)] := by
  intro h
  simp [aim_camera_light, querySingle] at h
  norm_num [Vec3.length_squared] at h

/-- Claim C7 (amended: with more than one camera entity the light-aiming step
no-ops): whenever the camera query matches at least two entities,
`Query::single()` fails and every spotlight's local transform is returned
unchanged. -/
theorem aim_multiple_cameras_noop {Q : Type} (qinv : Q → Q) (qmul : Q → Q → Q)
    (arc : Vec3 → Vec3 → Q) (c1 c2 : Q × OrbitCamera)
    (rest : List (Q × OrbitCamera)) (lights : List (Transform Q × Vec3)) :
    aim_camera_light qinv qmul arc (c1 :: c2 :: rest) lights
      = lights.map (fun l => l.1) := rfl

/-- Claim C10: running the per-tick update a second time with unchanged
inputs contributing zero yaw change returns exactly the state and transform
of the first run (the result is a pure function of the orbit parameters). -/
theorem orbit_update_idempotent {Q : Type} (lookAt : Vec3 → Vec3 → Vec3 → Q)
    (dt : ℝ) (keyA keyD : Bool) (orbit : OrbitCamera) (t : Transform Q)
    (h : direction keyA keyD * orbit.speed * dt = 0) :
    orbit_camera_system lookAt dt keyA keyD
        (orbit_camera_system lookAt dt keyA keyD orbit t).1
        (orbit_camera_system lookAt dt keyA keyD orbit t).2
      = orbit_camera_system lookAt dt keyA keyD orbit t := by
  simp only [orbit_camera_system]
  rw [rustClamp_idem orbit.pitch 0.05 1.2 (by norm_num)]
  simp [h]

/-- Claim C10 witness: with neither key held the yaw increment is zero, and a
second run reproduces the first run's output exactly. -/
theorem orbit_update_idempotent_witness :
    orbit_camera_system (fun _ _ _ => (() : Unit)) 5 false false
        ((orbit_camera_system (fun _ _ _ => ()) 5 false false
          ⟨900, 0.7, 0.4, 1.5, ⟨0, 200, 0⟩⟩ ⟨⟨0, 0, 0⟩, ()⟩).1)
        ((orbit_camera_system (fun _ _ _ => ()) 5 false false
          ⟨900, 0.7, 0.4, 1.5, ⟨0, 200, 0⟩⟩ ⟨⟨0, 0, 0⟩, ()⟩).2)
      = orbit_camera_system (fun _ _ _ => ()) 5 false false
          ⟨900, 0.7, 0.4, 1.5, ⟨0, 200, 0⟩⟩ ⟨⟨0, 0, 0⟩, ()⟩ :=
  orbit_update_idempotent (fun _ _ _ => ()) 5 false false
    ⟨900, 0.7, 0.4, 1.5, ⟨0, 200, 0⟩⟩ ⟨⟨0, 0, 0⟩, ()⟩
    (by simp [direction])

end PcCase
